import Mathlib

/-!
Verification of the Douban review crawler (`src/services/doubanCrawler.ts`).

The development shallowly embeds the crawler's three layers:

* the extraction engine `parseDoubanPage` (DOM-based field resolution per
  item block),
* the transport wrapper `fetchViaLocalServer` (classification of responses
  from the local proxy, conversion of connection failures into a
  user-actionable message),
* the orchestrator `crawlUserReviews` (per-category pagination loop with
  offset management, log emission and final empty-aggregate check).

The DOM is embedded by its observations: an `Item` records, for each
selector the source code queries inside one item block, whether the element
exists and what its `textContent` is; `classAttrs` lists the `class`
attribute strings of the block's descendant elements in document order,
which is what the `[class^="rating"]` query and the `className` regex
inspect.  A fetched page (`Html`) carries the raw response text (inspected
only via substring tests in the source) together with its parsed document.
Asynchrony, `sleep` pacing and `console.warn`/`console.error` calls have no
effect on the returned data and are not modelled; `onLog` output is
modelled as an explicit list of log lines, and the list of target URLs
passed to the transport is recorded so that statements about which pages
get requested can be made.
-/

/-- String `pat` is a prefix of `s` (character-wise).  Embeds the CSS
attribute selector `[class^="rating"]`, which tests whether the raw `class`
attribute value *begins with* the given string. -/
def strHasPre (pat s : String) : Bool := pat.data.isPrefixOf s.data

/-- `pat` occurs as a contiguous substring of the character list. -/
def listContainsSub (pat : List Char) : List Char → Bool
  | [] => pat.isEmpty
  | c :: rest => pat.isPrefixOf (c :: rest) || listContainsSub pat rest

/-- JavaScript `s.includes(pat)`. -/
def containsSubstr (s pat : String) : Bool := listContainsSub pat.data s.data

/-- Drop whitespace from both ends of a character list. -/
def trimChars (l : List Char) : List Char :=
  ((l.dropWhile Char.isWhitespace).reverse.dropWhile Char.isWhitespace).reverse

/-- JavaScript `String.prototype.trim()`. -/
def jsTrim (s : String) : String := String.mk (trimChars s.data)

/-- Split a character list into its maximal whitespace-free runs, in
order.  On a trimmed string this is exactly JavaScript
`split(/\s+/)` (which produces no empty fragments when the input neither
starts nor ends with whitespace). -/
def splitWs : List Char → List Char → List String
  | acc, [] => if acc.isEmpty then [] else [String.mk acc.reverse]
  | acc, c :: rest =>
    if c.isWhitespace then
      if acc.isEmpty then splitWs [] rest
      else String.mk acc.reverse :: splitWs [] rest
    else splitWs (c :: acc) rest

/-- Remove the first occurrence of `pat` from a character list; if `pat`
does not occur the list is unchanged.  Embeds JavaScript
`String.prototype.replace(pat, '')` with a *string* pattern, which replaces
only the first occurrence. -/
def removeFirst (pat : List Char) : List Char → List Char
  | [] => []
  | c :: rest =>
    if pat.isPrefixOf (c :: rest) then (c :: rest).drop pat.length
    else c :: removeFirst pat rest

/-- The three review categories of `parseDoubanPage`'s signature
(`'movie' | 'book' | 'music'`). -/
inductive Category where
  | movie
  | book
  | music
deriving DecidableEq, Repr

/-- One extracted review record, the object literal pushed by
`parseDoubanPage` (shape also given by spec section 3). -/
structure ReviewItem where
  title : String
  rating : Nat
  comment : String
  date : String
  category : Category
  tags : List String
deriving DecidableEq, Repr

/-- The observations `parseDoubanPage` makes of one item block
(`.item` / `.subject-item`).  Each `Option String` field is the result of
one `querySelector` call: `none` when no element matches, `some t` when the
first matching element has `textContent` `t` (for DOM elements
`textContent` is always a string, possibly empty). -/
structure Item where
  /-- `item.querySelector(".title a")`. -/
  titleA : Option String
  /-- `item.querySelector(".info h2 a")`. -/
  infoH2A : Option String
  /-- `class` attribute values of the block's descendant elements in
  document order; `querySelector('[class^="rating"]')` selects the first
  whose attribute string begins with `rating`, and `className` of the
  selected element is that attribute string. -/
  classAttrs : List String
  /-- `item.querySelector(".comment")`. -/
  commentEl : Option String
  /-- `item.querySelector(".short-note")`. -/
  shortNote : Option String
  /-- `item.querySelector(".date")`. -/
  dateEl : Option String
  /-- `item.querySelector(".tags")`. -/
  tagsEl : Option String
deriving DecidableEq, Repr

/-- The parsed document: the page `<title>` text and the item blocks
returned by `querySelectorAll(".item, .subject-item")` in document order.
The title only feeds a `console.warn` in the source and never influences
the returned data. -/
structure Doc where
  docTitle : Option String
  items : List Item
deriving DecidableEq, Repr

/-- A fetched page as observed by the crawler: the raw text (used only
through `includes` substring tests and error messages) and its DOM parse. -/
structure Html where
  raw : String
  doc : Doc
deriving DecidableEq, Repr

/-- Leftmost match of the regex `/rating(\d)-t/` anchored at the head of
the character list: the literal `rating`, one digit (captured), then `-t`.
Returns `parseInt` of the captured digit. -/
def ratingMatchAt : List Char → Option Nat
  | c1 :: c2 :: c3 :: c4 :: c5 :: c6 :: d :: c8 :: c9 :: _ =>
    if c1 = 'r' ∧ c2 = 'a' ∧ c3 = 't' ∧ c4 = 'i' ∧ c5 = 'n' ∧ c6 = 'g' ∧
       d.isDigit = true ∧ c8 = '-' ∧ c9 = 't'
    then some (d.toNat - 48) else none
  | _ => none

/-- Leftmost-first scan of `/rating(\d)-t/` over the whole string, as the
JavaScript regex engine performs for `className.match(/rating(\d)-t/)`. -/
def ratingScan : List Char → Option Nat
  | [] => none
  | c :: rest =>
    match ratingMatchAt (c :: rest) with
    | some d => some d
    | none => ratingScan rest

/-- Rating resolution of one item block (lines 32–37 of the source):
select the first descendant whose `class` attribute begins with `rating`
(`querySelector('[class^="rating"]')`); if one exists, match
`/rating(\d)-t/` against its `className` and take the digit; otherwise the
rating stays `0`. -/
def itemRating (it : Item) : Nat :=
  match it.classAttrs.find? (fun s => strHasPre "rating" s) with
  | none => 0
  | some cls =>
    match ratingScan cls.data with
    | some d => d
    | none => 0

/-- The `querySelector(primary) || querySelector(secondary)` element
fallback followed by `?.textContent?.trim() || ""`: the secondary
selector is consulted only when the primary matched *no element*; the
selected element's trimmed text is used (empty text of an existing primary
element does not fall through), and absence of both yields `""`. -/
def resolveText (primary secondary : Option String) : String :=
  match primary with
  | some t => jsTrim t
  | none =>
    match secondary with
    | some t => jsTrim t
    | none => ""

/-- Title resolution: `.title a` then `.info h2 a` (source line 28–29). -/
def resolvedTitle (it : Item) : String := resolveText it.titleA it.infoH2A

/-- Comment resolution: `.comment` then `.short-note` (source line 41–42). -/
def resolvedComment (it : Item) : String := resolveText it.commentEl it.shortNote

/-- Date resolution: `.date` only, trimmed, defaulting to `""`. -/
def resolvedDate (it : Item) : String :=
  match it.dateEl with
  | some t => jsTrim t
  | none => ""

/-- Tag resolution (source lines 49–54): require an existing `.tags`
element with truthy (non-empty) text, strip the first occurrence of the
literal label `"标签: "`, trim, and split on whitespace runs
(`split(/\s+/)` on a trimmed string yields no empty fragments). -/
def itemTags (it : Item) : List String :=
  match it.tagsEl with
  | none => []
  | some t =>
    if t = "" then []
    else
      let tagText := jsTrim (String.mk (removeFirst ("标签: ".data) t.data))
      if tagText = "" then []
      else splitWs [] tagText.data

/-- Extraction of one item block, the body of the `items.forEach` callback:
the record is pushed only when the resolved title is non-empty
(`if(title)` at line 57). -/
def extractItem (cat : Category) (it : Item) : Option ReviewItem :=
  let title := resolvedTitle it
  if title = "" then none
  else
    some { title := title
           rating := itemRating it
           comment := resolvedComment it
           date := resolvedDate it
           category := cat
           tags := itemTags it }

/-- The extraction engine `parseDoubanPage`: every item block is processed
independently; blocks without a resolvable title contribute nothing, the
others contribute one record each, in document order. -/
def parseDoubanPage (html : Html) (cat : Category) : List ReviewItem :=
  html.doc.items.filterMap (extractItem cat)


/-- Behaviour of one call to the browser `fetch` against the local proxy,
identified by the target URL and cookie it carries: either the promise
rejects with a connection-type error message (`connFail`), or a response
with a status code and body arrives. -/
inductive FetchOutcome where
  | connFail (msg : String)
  | resp (status : Nat) (body : Html)
deriving Repr

/-- A transport: the behaviour of the local proxy as seen through `fetch`,
as a function of the requested target URL and cookie. -/
def Transport : Type := String → String → FetchOutcome

/-- The connection-failure replacement message of `fetchViaLocalServer`
(source line 92). -/
def proxyDownMsg : String := "❌ 无法连接本地代理！请确保在终端运行了 'node proxy.js'"

/-- Body of the `try` block of `fetchViaLocalServer` (source lines 76–89):
non-ok responses are turned into thrown errors (403 and 418 specially),
ok responses return the body text. -/
def fetchAttempt (T : Transport) (targetUrl cookie : String) : Except String Html :=
  match T targetUrl cookie with
  | .connFail msg => .error msg
  | .resp status body =>
    if 200 ≤ status ∧ status ≤ 299 then .ok body
    else if status = 403 then .error "403 Forbidden: IP被豆瓣限制或Cookie无效"
    else if status = 418 then .error "418 I'm a teapot: 豆瓣认为你是机器人，IP暂时被封"
    else .error ("请求失败 (Status " ++ toString status ++ "): " ++ body.raw)

/-- `fetchViaLocalServer` (source lines 68–96): the catch clause rewrites
any error whose message contains `Failed to fetch` or `Connection refused`
into the "local proxy is down" hint and rethrows everything else. -/
def fetchViaLocalServer (T : Transport) (targetUrl cookie : String) : Except String Html :=
  match fetchAttempt T targetUrl cookie with
  | .ok h => .ok h
  | .error msg =>
    if containsSubstr msg "Failed to fetch" || containsSubstr msg "Connection refused"
    then .error proxyDownMsg
    else .error msg

/-- Subdomain chosen per category (source line 117). -/
def subdomainOf : Category → String
  | .movie => "movie"
  | .book => "book"
  | .music => "music"

/-- The category as it appears interpolated in log templates. -/
def catName : Category → String
  | .movie => "movie"
  | .book => "book"
  | .music => "music"

/-- `cat.toUpperCase()` in the per-page request log. -/
def catUpper : Category → String
  | .movie => "MOVIE"
  | .book => "BOOK"
  | .music => "MUSIC"

/-- The page URL template (source line 126). -/
def buildUrl (cat : Category) (uid : String) (start : Nat) : String :=
  "https://" ++ subdomainOf cat ++ ".douban.com/people/" ++ uid ++
    "/collect?start=" ++ toString start ++ "&sort=time&rating=all&filter=all&mode=grid"

/-- Per-page request log line (source line 130). -/
def requestLog (cat : Category) (page : Nat) : String :=
  "⚡ [" ++ catUpper cat ++ "] P" ++ toString page ++ " 请求中..."

/-- Per-category stop log line, carrying the caught error message
(source line 154). -/
def stopLog (cat : Category) (msg : String) : String :=
  "⛔ " ++ catName cat ++ " 停止: " ++ msg

/-- First-page empty-result informational log line (source line 145). -/
def emptyPageLog (cat : Category) : String :=
  "ℹ️ " ++ catName cat ++ " 暂无数据或数据私密"

/-- Per-page success log line (source line 149). -/
def captureLog (n : Nat) : String := "✅ 捕获 " ++ toString n ++ " 条数据"

/-- The message thrown when the soft-block markers are found in a 2xx body
(source line 140). -/
def blockMsg : String := "豆瓣反爬拦截 (IP 频率过高)"

/-- The error thrown when the final aggregate is empty (source line 160). -/
def emptyDataMsg : String := "数据为空。可能是 IP 被封、UID 错误或用户开启了隐私保护。"

/-- The soft-block content check performed on the raw body before parsing
(source line 139). -/
def hasBlockMarkers (h : Html) : Bool :=
  containsSubstr h.raw "检测到有异常请求" || containsSubstr h.raw "登录豆瓣"

/-- The orchestrator-local state threaded through the page loop: the
aggregated records (`allReviews`), the log lines emitted so far, and —
as specification ghost state — the target URLs requested so far. -/
structure LoopState where
  acc : List ReviewItem
  logs : List String
  urls : List String
deriving Repr

/-- The per-category page loop of `crawlUserReviews` (source lines
125–157), with the remaining page budget as explicit fuel (the source runs
`page` from 1 to `maxPages`, so the initial fuel is `maxPages`).  Each
iteration requests the URL for the current `start` offset; a fetch error
or a soft-block marker stops the category with a `stopLog` line (the
`catch`/`break`); a page with zero extracted records stops it, logging
informationally only on page 1; a page with records appends them, advances
`start` by 15 and recurses.  The `sleep` pacing has no observable effect
on the returned data and is elided. -/
def crawlPages (T : Transport) (uid cookie : String) (cat : Category) :
    Nat → Nat → Nat → LoopState → LoopState
  | 0, _, _, st => st
  | fuel + 1, page, start, st =>
    let url := buildUrl cat uid start
    let st1 : LoopState :=
      { st with logs := st.logs ++ [requestLog cat page], urls := st.urls ++ [url] }
    match fetchViaLocalServer T url cookie with
    | .error msg => { st1 with logs := st1.logs ++ [stopLog cat msg] }
    | .ok html =>
      if hasBlockMarkers html then
        { st1 with logs := st1.logs ++ [stopLog cat blockMsg] }
      else
        let items := parseDoubanPage html cat
        if items.length = 0 then
          { st1 with logs := st1.logs ++ (if page = 1 then [emptyPageLog cat] else []) }
        else
          crawlPages T uid cookie cat fuel (page + 1) (start + 15)
            { acc := st1.acc ++ items
              logs := st1.logs ++ [captureLog items.length]
              urls := st1.urls }

/-- The outer `for (const cat of categories)` loop: each category gets a
fresh `page = 1`, `start = 0` cursor and the fixed `maxPages = 4` budget
(source lines 116–125). -/
def crawlCats (T : Transport) (uid cookie : String) :
    List Category → LoopState → LoopState
  | [], st => st
  | cat :: rest, st =>
    crawlCats T uid cookie rest (crawlPages T uid cookie cat 4 1 0 st)

/-- Observable outcome of one `crawlUserReviews` call: the returned list
or the thrown error message, the log lines passed to `onLog`, and the
target URLs requested. -/
structure CrawlResult where
  result : Except String (List ReviewItem)
  logs : List String
  urls : List String
deriving Repr

/-- The startup log lines (source lines 107–114). -/
def startupLogs (userCookie : String) : List String :=
  ["🔌 模式: 本地直连 (My IP)", "📡 确保后台已运行 'node proxy.js'"] ++
    (if userCookie = "" then
      ["⚠️ 未检测到 Cookie，将以游客身份访问 (只能抓取公开可见内容，频率受限)"]
     else ["🍪 已加载 Cookie，将以登录身份访问"])

/-- The entry point `crawlUserReviews` (source lines 99–163): the category
list is the literal `['movie']`; after the loops, an empty aggregate is
turned into a thrown `emptyDataMsg` error, a non-empty one is returned. -/
def crawlUserReviews (T : Transport) (uid userCookie : String) : CrawlResult :=
  let final := crawlCats T uid userCookie [Category.movie]
    { acc := [], logs := startupLogs userCookie, urls := [] }
  if final.acc.length = 0 then
    { result := .error emptyDataMsg, logs := final.logs, urls := final.urls }
  else
    { result := .ok final.acc, logs := final.logs, urls := final.urls }

/-! ### Helper lemmas about the extraction engine -/

theorem extractItem_eq_some {cat : Category} {it : Item} {r : ReviewItem}
    (h : extractItem cat it = some r) :
    r = { title := resolvedTitle it
          rating := itemRating it
          comment := resolvedComment it
          date := resolvedDate it
          category := cat
          tags := itemTags it } ∧ resolvedTitle it ≠ "" := by
  simp only [extractItem] at h
  split at h
  · exact absurd h (by simp)
  · rename_i hne
    exact ⟨((Option.some.injEq _ _).mp h).symm, hne⟩

theorem extractItem_isSome_iff (cat : Category) (it : Item) :
    (extractItem cat it).isSome = true ↔ resolvedTitle it ≠ "" := by
  simp only [extractItem]
  split
  · simp_all
  · simp_all

theorem ratingMatchAt_le_nine {l : List Char} {d : Nat}
    (h : ratingMatchAt l = some d) : d ≤ 9 := by
  unfold ratingMatchAt at h
  split at h
  · rename_i c1 c2 c3 c4 c5 c6 dc c8 c9 tail
    split at h
    · rename_i hcond
      obtain ⟨-, -, -, -, -, -, hdig, -, -⟩ := hcond
      injection h with h
      subst h
      have h57 : dc.toNat ≤ 57 := by
        simp [Char.isDigit] at hdig
        exact hdig.2
      omega
    · exact absurd h (by simp)
  · exact absurd h (by simp)

theorem ratingScan_le_nine {l : List Char} {d : Nat}
    (h : ratingScan l = some d) : d ≤ 9 := by
  induction l with
  | nil => simp [ratingScan] at h
  | cons c rest ih =>
    rw [ratingScan] at h
    split at h
    · rename_i d' hm
      cases h
      exact ratingMatchAt_le_nine hm
    · exact ih h

theorem itemRating_le_nine (it : Item) : itemRating it ≤ 9 := by
  unfold itemRating
  split
  · omega
  · split
    · rename_i hscan
      exact ratingScan_le_nine hscan
    · omega

theorem mem_parseDoubanPage {html : Html} {cat : Category} {r : ReviewItem}
    (h : r ∈ parseDoubanPage html cat) :
    ∃ it ∈ html.doc.items, extractItem cat it = some r := by
  simpa [parseDoubanPage, List.mem_filterMap] using h

theorem mem_parseDoubanPage_category {html : Html} {cat : Category} {r : ReviewItem}
    (h : r ∈ parseDoubanPage html cat) : r.category = cat := by
  obtain ⟨it, -, hext⟩ := mem_parseDoubanPage h
  obtain ⟨rfl, -⟩ := extractItem_eq_some hext
  rfl

theorem mem_parseDoubanPage_rating {html : Html} {cat : Category} {r : ReviewItem}
    (h : r ∈ parseDoubanPage html cat) : r.rating ≤ 9 := by
  obtain ⟨it, -, hext⟩ := mem_parseDoubanPage h
  obtain ⟨rfl, -⟩ := extractItem_eq_some hext
  exact itemRating_le_nine it

theorem mem_parseDoubanPage_title {html : Html} {cat : Category} {r : ReviewItem}
    (h : r ∈ parseDoubanPage html cat) : r.title ≠ "" := by
  obtain ⟨it, -, hext⟩ := mem_parseDoubanPage h
  obtain ⟨rfl, hne⟩ := extractItem_eq_some hext
  exact hne

/-! ### Step equations for the page loop -/

theorem crawlPages_fail (T : Transport) (uid cookie : String) (cat : Category)
    (fuel page start : Nat) (st : LoopState) (msg : String)
    (h : fetchViaLocalServer T (buildUrl cat uid start) cookie = .error msg) :
    crawlPages T uid cookie cat (fuel + 1) page start st =
      { st with logs := st.logs ++ [requestLog cat page, stopLog cat msg]
                urls := st.urls ++ [buildUrl cat uid start] } := by
  simp only [crawlPages, h]
  simp [List.append_assoc]

theorem crawlPages_blocked (T : Transport) (uid cookie : String) (cat : Category)
    (fuel page start : Nat) (st : LoopState) (html : Html)
    (h : fetchViaLocalServer T (buildUrl cat uid start) cookie = .ok html)
    (hb : hasBlockMarkers html = true) :
    crawlPages T uid cookie cat (fuel + 1) page start st =
      { st with logs := st.logs ++ [requestLog cat page, stopLog cat blockMsg]
                urls := st.urls ++ [buildUrl cat uid start] } := by
  simp only [crawlPages, h, hb, if_true]
  simp [List.append_assoc]

theorem crawlPages_emptyPage (T : Transport) (uid cookie : String) (cat : Category)
    (fuel page start : Nat) (st : LoopState) (html : Html)
    (h : fetchViaLocalServer T (buildUrl cat uid start) cookie = .ok html)
    (hb : hasBlockMarkers html = false)
    (hp : parseDoubanPage html cat = []) :
    crawlPages T uid cookie cat (fuel + 1) page start st =
      { st with logs := st.logs ++ [requestLog cat page] ++
                  (if page = 1 then [emptyPageLog cat] else [])
                urls := st.urls ++ [buildUrl cat uid start] } := by
  simp only [crawlPages, h, hb, hp, Bool.false_eq_true, if_false, List.length_nil,
    if_true, List.append_assoc]

theorem crawlPages_next (T : Transport) (uid cookie : String) (cat : Category)
    (fuel page start : Nat) (st : LoopState) (html : Html)
    (h : fetchViaLocalServer T (buildUrl cat uid start) cookie = .ok html)
    (hb : hasBlockMarkers html = false)
    (hne : parseDoubanPage html cat ≠ []) :
    crawlPages T uid cookie cat (fuel + 1) page start st =
      crawlPages T uid cookie cat fuel (page + 1) (start + 15)
        { acc := st.acc ++ parseDoubanPage html cat
          logs := st.logs ++ [requestLog cat page, captureLog (parseDoubanPage html cat).length]
          urls := st.urls ++ [buildUrl cat uid start] } := by
  have hlen : (parseDoubanPage html cat).length ≠ 0 := by
    simpa [List.length_eq_zero] using hne
  simp only [crawlPages, h, hb, Bool.false_eq_true, if_false, hlen, List.append_assoc]
  simp [List.append_assoc]

/-! ### Loop invariants -/

theorem crawlPages_acc_pred (T : Transport) (uid cookie : String) (cat : Category)
    (Q : ReviewItem → Prop)
    (hQ : ∀ html r, r ∈ parseDoubanPage html cat → Q r) :
    ∀ fuel page start st, (∀ r ∈ st.acc, Q r) →
      ∀ r ∈ (crawlPages T uid cookie cat fuel page start st).acc, Q r := by
  intro fuel
  induction fuel with
  | zero =>
    intro page start st hst r hr
    exact hst r hr
  | succ n ih =>
    intro page start st hst r hr
    cases hf : fetchViaLocalServer T (buildUrl cat uid start) cookie with
    | error msg =>
      rw [crawlPages_fail T uid cookie cat n page start st msg hf] at hr
      exact hst r hr
    | ok html =>
      by_cases hb : hasBlockMarkers html = true
      · rw [crawlPages_blocked T uid cookie cat n page start st html hf hb] at hr
        exact hst r hr
      · have hb' : hasBlockMarkers html = false := by simpa using hb
        by_cases hp : parseDoubanPage html cat = []
        · rw [crawlPages_emptyPage T uid cookie cat n page start st html hf hb' hp] at hr
          exact hst r hr
        · rw [crawlPages_next T uid cookie cat n page start st html hf hb' hp] at hr
          refine ih _ _ _ ?_ r hr
          intro x hx
          rcases List.mem_append.mp hx with h1 | h2
          · exact hst x h1
          · exact hQ html x h2

theorem crawlPages_urls_pred (T : Transport) (uid cookie : String) (cat : Category)
    (P : String → Prop) (hP : ∀ s, P (buildUrl cat uid s)) :
    ∀ fuel page start st, (∀ u ∈ st.urls, P u) →
      ∀ u ∈ (crawlPages T uid cookie cat fuel page start st).urls, P u := by
  intro fuel
  induction fuel with
  | zero =>
    intro page start st hst u hu
    exact hst u hu
  | succ n ih =>
    intro page start st hst u hu
    have hstep : ∀ v ∈ st.urls ++ [buildUrl cat uid start], P v := by
      intro v hv
      rcases List.mem_append.mp hv with h1 | h2
      · exact hst v h1
      · rw [List.mem_singleton.mp h2]
        exact hP start
    cases hf : fetchViaLocalServer T (buildUrl cat uid start) cookie with
    | error msg =>
      rw [crawlPages_fail T uid cookie cat n page start st msg hf] at hu
      exact hstep u hu
    | ok html =>
      by_cases hb : hasBlockMarkers html = true
      · rw [crawlPages_blocked T uid cookie cat n page start st html hf hb] at hu
        exact hstep u hu
      · have hb' : hasBlockMarkers html = false := by simpa using hb
        by_cases hp : parseDoubanPage html cat = []
        · rw [crawlPages_emptyPage T uid cookie cat n page start st html hf hb' hp] at hu
          exact hstep u hu
        · rw [crawlPages_next T uid cookie cat n page start st html hf hb' hp] at hu
          exact ih _ _ _ hstep u hu

/-! ### Unfolding the entry point -/

theorem crawlUserReviews_eq (T : Transport) (uid cookie : String) :
    crawlUserReviews T uid cookie =
      (fun final =>
        if final.acc.length = 0 then
          CrawlResult.mk (Except.error emptyDataMsg) final.logs final.urls
        else CrawlResult.mk (Except.ok final.acc) final.logs final.urls)
        (crawlPages T uid cookie Category.movie 4 1 0
          ⟨[], startupLogs cookie, []⟩) := rfl

theorem crawlUserReviews_ok {T : Transport} {uid cookie : String}
    {rs : List ReviewItem}
    (h : (crawlUserReviews T uid cookie).result = Except.ok rs) :
    rs = (crawlPages T uid cookie Category.movie 4 1 0
      ⟨[], startupLogs cookie, []⟩).acc := by
  rw [crawlUserReviews_eq] at h
  simp only [] at h
  split at h
  · exact absurd h (by simp)
  · simpa using h.symm

theorem crawlUserReviews_urls (T : Transport) (uid cookie : String) :
    (crawlUserReviews T uid cookie).urls =
      (crawlPages T uid cookie Category.movie 4 1 0
        ⟨[], startupLogs cookie, []⟩).urls := by
  rw [crawlUserReviews_eq]
  simp only []
  split <;> rfl

theorem crawlUserReviews_logs (T : Transport) (uid cookie : String) :
    (crawlUserReviews T uid cookie).logs =
      (crawlPages T uid cookie Category.movie 4 1 0
        ⟨[], startupLogs cookie, []⟩).logs := by
  rw [crawlUserReviews_eq]
  simp only []
  split <;> rfl

theorem movie_host_split (x : String) :
    ("https://" : String) ++ ("movie" ++ (".douban.com/people/" ++ x)) =
      "https://movie.douban.com/" ++ ("people/" ++ x) := by
  rw [← String.append_assoc, ← String.append_assoc, ← String.append_assoc]
  have hlit : (("https://" : String) ++ "movie") ++ ".douban.com/people/" =
      ("https://movie.douban.com/" : String) ++ "people/" := rfl
  rw [hlit]

theorem buildUrl_movie (uid : String) (s : Nat) :
    buildUrl Category.movie uid s =
      "https://movie.douban.com/" ++
        ("people/" ++ (uid ++ ("/collect?start=" ++ (toString s ++
          "&sort=time&rating=all&filter=all&mode=grid")))) := by
  simp only [buildUrl, subdomainOf, String.append_assoc]
  rw [movie_host_split]

theorem fetchViaLocalServer_connFail (T : Transport) (u c m : String)
    (h : T u c = FetchOutcome.connFail m)
    (hm : containsSubstr m "Failed to fetch" = true ∨
          containsSubstr m "Connection refused" = true) :
    fetchViaLocalServer T u c = Except.error proxyDownMsg := by
  unfold fetchViaLocalServer fetchAttempt
  rw [h]
  rcases hm with hm | hm <;> simp [hm]

/-! ### Concrete fixtures used in counterexamples and witnesses -/

/-- An item block whose `.title a` element exists with empty text while
`.info h2 a` holds a usable title. -/
def itemTitleEmpty : Item :=
  { titleA := some "", infoH2A := some "Good Title", classAttrs := []
    commentEl := none, shortNote := none, dateEl := none, tagsEl := none }

/-- An item block whose `.comment` element exists with empty text while
`.short-note` holds a usable comment. -/
def itemCommentEmpty : Item :=
  { titleA := some "T", infoH2A := none, classAttrs := []
    commentEl := some "", shortNote := some "real comment", dateEl := none
    tagsEl := none }

/-- An item block whose rating span carries an unrelated class token
*before* the `rating3-t` token. -/
def itemRatingShifted : Item :=
  { titleA := some "T", infoH2A := none, classAttrs := ["foo rating3-t"]
    commentEl := none, shortNote := none, dateEl := none, tagsEl := none }

/-- An item block whose rating class token carries the out-of-range digit
`7`. -/
def itemRatingSeven : Item :=
  { titleA := some "T", infoH2A := none, classAttrs := ["rating7-t"]
    commentEl := none, shortNote := none, dateEl := none, tagsEl := none }

/-- A well-formed movie item block. -/
def itemA : Item :=
  { titleA := some "肖申克的救赎", infoH2A := none, classAttrs := ["rating5-t"]
    commentEl := some " 不错 ", shortNote := none, dateEl := some "2024-01-01"
    tagsEl := some "标签: 经典 剧情" }

/-- The record extracted from `itemA`. -/
def recA : ReviewItem :=
  { title := "肖申克的救赎", rating := 5, comment := "不错", date := "2024-01-01"
    category := Category.movie, tags := ["经典", "剧情"] }

/-- A fetched page containing the single item block `itemA`. -/
def pageA : Html := ⟨"", ⟨none, [itemA]⟩⟩

/-- A fetched page with no item blocks. -/
def pageEmpty : Html := ⟨"", ⟨none, []⟩⟩

/-- A fetched page whose body carries the soft-block marker. -/
def pageBlocked : Html := ⟨"系统检测到有异常请求", ⟨none, [itemA]⟩⟩

/-- A transport whose every call rejects with a connection failure. -/
def Tfail : Transport := fun _ _ => FetchOutcome.connFail "Failed to fetch"

/-- A transport serving one non-empty page at offset 0 and refusing the
connection afterwards. -/
def ToneThenFail : Transport := fun u _ =>
  if u = buildUrl Category.movie "u" 0 then FetchOutcome.resp 200 pageA
  else FetchOutcome.connFail "Failed to fetch"

/-- A transport serving a non-empty page at offset 0, an empty page at
offset 15, a connection failure at offset 30 and a soft-blocked page
elsewhere. -/
def Tmixed : Transport := fun u _ =>
  if u = buildUrl Category.movie "u" 0 then FetchOutcome.resp 200 pageA
  else if u = buildUrl Category.movie "u" 15 then FetchOutcome.resp 200 pageEmpty
  else if u = buildUrl Category.movie "u" 30 then
    FetchOutcome.connFail "Connection refused"
  else FetchOutcome.resp 200 pageBlocked

/-- A transport serving the same empty page everywhere. -/
def Tempty : Transport := fun _ _ => FetchOutcome.resp 200 pageEmpty

/-! ### Claim theorems -/

/-- Claim C2, counterexample.  The claim states that a text field falls
through to the secondary selector when the primary element is absent *or*
its text is empty.  The code falls through only on absence: here the
`.title a` element exists with empty text while `.info h2 a` holds
"Good Title", yet the item is dropped entirely (title resolved to `""`),
and a `.comment` element with empty text shadows a non-empty
`.short-note`. -/
theorem C2_counterexample :
    itemTitleEmpty.titleA = some "" ∧
    itemTitleEmpty.infoH2A = some "Good Title" ∧
    parseDoubanPage ⟨"", ⟨none, [itemTitleEmpty]⟩⟩ Category.movie = [] ∧
    itemCommentEmpty.commentEl = some "" ∧
    itemCommentEmpty.shortNote = some "real comment" ∧
    (parseDoubanPage ⟨"", ⟨none, [itemCommentEmpty]⟩⟩ Category.movie).map
      ReviewItem.comment = [""] := by
  decide

/-- Claim C2, amended.  For every record the extractor produces, the
`title` and `comment` fields follow an element-absence fallback chain: if
the primary element exists its trimmed text is used even when that text is
empty (no fallback on empty text); the secondary selector is consulted
only when the primary element is absent; when both are absent the field is
the empty string. -/
theorem C2_amended (cat : Category) (it : Item) (r : ReviewItem)
    (h : extractItem cat it = some r) :
    (∀ t, it.titleA = some t → r.title = jsTrim t)
    ∧ (it.titleA = none → ∀ t, it.infoH2A = some t → r.title = jsTrim t)
    ∧ (it.titleA = none → it.infoH2A = none → r.title = "")
    ∧ (∀ t, it.commentEl = some t → r.comment = jsTrim t)
    ∧ (it.commentEl = none → ∀ t, it.shortNote = some t → r.comment = jsTrim t)
    ∧ (it.commentEl = none → it.shortNote = none → r.comment = "") := by
  obtain ⟨rfl, -⟩ := extractItem_eq_some h
  refine ⟨?_, ?_, ?_, ?_, ?_, ?_⟩
  · intro t ht
    simp [resolvedTitle, resolveText, ht]
  · intro h1 t ht
    simp [resolvedTitle, resolveText, h1, ht]
  · intro h1 h2
    simp [resolvedTitle, resolveText, h1, h2]
  · intro t ht
    simp [resolvedComment, resolveText, ht]
  · intro h1 t ht
    simp [resolvedComment, resolveText, h1, ht]
  · intro h1 h2
    simp [resolvedComment, resolveText, h1, h2]

/-- An item block with the title only under the secondary selector and an
empty-text `.comment` element shadowing a non-empty `.short-note`. -/
def itemW2 : Item :=
  { titleA := none, infoH2A := some " 标题 ", classAttrs := []
    commentEl := some "", shortNote := some "ignored", dateEl := none
    tagsEl := none }

/-- The record extracted from `itemW2`. -/
def recW2 : ReviewItem :=
  { title := "标题", rating := 0, comment := "", date := ""
    category := Category.movie, tags := [] }

/-- Claim C2, witness: concrete instantiation of the amended theorem. -/
theorem C2_amended_witness :
    recW2.title = jsTrim " 标题 " ∧ recW2.comment = jsTrim "" := by
  have h := C2_amended Category.movie itemW2 recW2 (by decide)
  exact ⟨h.2.1 rfl " 标题 " rfl, h.2.2.2.1 "" rfl⟩

/-- Claim C3, counterexample.  The claim states rating matching tolerates
unrelated class tokens *before* the rating token.  It does not: the class
attribute "foo rating3-t" contains the token `rating3-t` (the regex scan
finds digit 3 in it), but `[class^="rating"]` requires the whole attribute
string to begin with `rating`, so the element is never selected and the
record's rating is `0`, not `3`. -/
theorem C3_counterexample :
    itemRatingShifted.classAttrs = ["foo rating3-t"] ∧
    ratingScan ("foo rating3-t").data = some 3 ∧
    (parseDoubanPage ⟨"", ⟨none, [itemRatingShifted]⟩⟩ Category.movie).map
      ReviewItem.rating = [0] := by
  decide

/-- Claim C3, amended.  Rating resolution selects the first descendant
whose class attribute string *begins with* `rating` and then matches
`rating<digit>-t` anywhere inside that attribute, so unrelated tokens
after the rating token are tolerated but tokens before it are not; when no
class attribute begins with `rating` the record's rating is `0`. -/
theorem C3_amended (cat : Category) (it it2 : Item) (r r2 : ReviewItem)
    (c : Char) (extra : List Char) (rest : List String)
    (hdig : c.isDigit = true)
    (hcls : it.classAttrs =
      String.mk ('r' :: 'a' :: 't' :: 'i' :: 'n' :: 'g' :: c :: '-' :: 't' :: extra)
        :: rest)
    (h : extractItem cat it = some r)
    (hcls2 : ∀ s ∈ it2.classAttrs, strHasPre "rating" s = false)
    (h2 : extractItem cat it2 = some r2) :
    r.rating = c.toNat - 48 ∧ r2.rating = 0 := by
  obtain ⟨rfl, -⟩ := extractItem_eq_some h
  obtain ⟨rfl, -⟩ := extractItem_eq_some h2
  constructor
  · show itemRating it = c.toNat - 48
    have hpre : strHasPre "rating"
        (String.mk ('r' :: 'a' :: 't' :: 'i' :: 'n' :: 'g' :: c :: '-' :: 't' :: extra))
          = true := rfl
    unfold itemRating
    rw [hcls, List.find?_cons_of_pos _ hpre]
    show (match ratingScan
        ('r' :: 'a' :: 't' :: 'i' :: 'n' :: 'g' :: c :: '-' :: 't' :: extra) with
      | some d => d
      | none => 0) = c.toNat - 48
    rw [ratingScan]
    simp [ratingMatchAt, hdig]
  · show itemRating it2 = 0
    have hnone : it2.classAttrs.find? (fun s => strHasPre "rating" s) = none := by
      rw [List.find?_eq_none]
      intro x hx
      simp [hcls2 x hx]
    unfold itemRating
    rw [hnone]

/-- An item block whose rating attribute tolerates extra text after the
rating token. -/
def itemW3a : Item :=
  { titleA := some "T", infoH2A := none, classAttrs := ["rating4-t extra"]
    commentEl := none, shortNote := none, dateEl := none, tagsEl := none }

/-- The record extracted from `itemW3a`. -/
def recW3a : ReviewItem :=
  { title := "T", rating := 4, comment := "", date := ""
    category := Category.movie, tags := [] }

/-- An item block none of whose class attributes begins with `rating`. -/
def itemW3b : Item :=
  { titleA := some "T", infoH2A := none
    classAttrs := ["foo", "bar rating2-t"]
    commentEl := none, shortNote := none, dateEl := none, tagsEl := none }

/-- The record extracted from `itemW3b`. -/
def recW3b : ReviewItem :=
  { title := "T", rating := 0, comment := "", date := ""
    category := Category.movie, tags := [] }

/-- Claim C3, witness: concrete instantiation of the amended theorem. -/
theorem C3_amended_witness : recW3a.rating = '4'.toNat - 48 ∧ recW3b.rating = 0 :=
  C3_amended Category.movie itemW3a itemW3b recW3a recW3b '4' (" extra".data) []
    (by decide) (by decide) (by decide) (by decide) (by decide)

/-- Claim C4, counterexample.  The claim bounds every extracted rating by
5, but the regex `rating(\d)-t` accepts any single digit: markup with the
class token `rating7-t` yields a record with rating `7`. -/
theorem C4_counterexample :
    itemRatingSeven.classAttrs = ["rating7-t"] ∧
    (parseDoubanPage ⟨"", ⟨none, [itemRatingSeven]⟩⟩ Category.movie).map
      ReviewItem.rating = [7] ∧
    ¬(7 ≤ 5) := by
  decide

/-- Claim C4, amended.  Every rating the extractor produces — and hence
every rating in a successful `crawlUserReviews` result — is a single
decimal digit, an integer in `[0, 9]` (only `[0, 5]` occurs on rating
tokens the site actually emits, but the code does not enforce that). -/
theorem C4_amended (T : Transport) (uid cookie : String) (html : Html)
    (cat : Category) :
    (∀ r ∈ parseDoubanPage html cat, r.rating ≤ 9)
    ∧ (∀ rs, (crawlUserReviews T uid cookie).result = Except.ok rs →
        ∀ r ∈ rs, r.rating ≤ 9) := by
  constructor
  · intro r hr
    exact mem_parseDoubanPage_rating hr
  · intro rs hrs r hr
    rw [crawlUserReviews_ok hrs] at hr
    exact crawlPages_acc_pred T uid cookie Category.movie (fun x => x.rating ≤ 9)
      (fun h x hx => mem_parseDoubanPage_rating hx) 4 1 0 _ (by simp) r hr

/-- Claim C4, witness: concrete instantiation of the amended theorem. -/
theorem C4_amended_witness : recA.rating ≤ 9 :=
  (C4_amended Tfail "u" "c" pageA Category.movie).1 recA (by decide)

/-- Claim C5.  A record appears in the extraction output for an item
block iff a non-empty title was resolved for that block; extraction is the
independent `filterMap` of per-item extraction (an unresolvable title
silently yields `none`, never an error), and every produced record carries
a non-empty title. -/
theorem C5_title_gate (cat : Category) (html : Html) :
    (∀ it ∈ html.doc.items,
        ((extractItem cat it).isSome = true ↔ resolvedTitle it ≠ ""))
    ∧ parseDoubanPage html cat = html.doc.items.filterMap (extractItem cat)
    ∧ (∀ r ∈ parseDoubanPage html cat, r.title ≠ "") :=
  ⟨fun it _ => extractItem_isSome_iff cat it, rfl,
    fun _ hr => mem_parseDoubanPage_title hr⟩

/-- Claim C5, witness: on a concrete page, the block with a resolvable
title produces a record and the block whose title resolves empty is
dropped. -/
theorem C5_witness :
    (extractItem Category.movie itemA).isSome = true
    ∧ (extractItem Category.movie itemTitleEmpty).isSome ≠ true := by
  constructor
  · exact ((C5_title_gate Category.movie pageA).1 itemA (by decide)).mpr (by decide)
  · intro hcontra
    have hne := ((C5_title_gate Category.movie ⟨"", ⟨none, [itemTitleEmpty]⟩⟩).1
      itemTitleEmpty (by decide)).mp hcontra
    exact hne (by decide)

/-- Claim C9.  Extraction is a total function processing item blocks
independently: it distributes over concatenation of the block list, and a
block on which per-item extraction yields nothing (the embedded image of a
malformed/skipped item) is simply dropped without affecting the records of
the remaining blocks. -/
theorem C9_no_abort (cat : Category) (t : Option String) (raw : String)
    (xs ys : List Item) (it : Item)
    (hbad : extractItem cat it = none) :
    parseDoubanPage ⟨raw, ⟨t, xs ++ ys⟩⟩ cat
      = parseDoubanPage ⟨raw, ⟨t, xs⟩⟩ cat ++ parseDoubanPage ⟨raw, ⟨t, ys⟩⟩ cat
    ∧ parseDoubanPage ⟨raw, ⟨t, xs ++ it :: ys⟩⟩ cat
      = parseDoubanPage ⟨raw, ⟨t, xs ++ ys⟩⟩ cat := by
  constructor
  · simp [parseDoubanPage, List.filterMap_append]
  · simp [parseDoubanPage, List.filterMap_append, hbad]

/-- An item block with no resolvable title anywhere. -/
def itemNoTitle : Item :=
  { titleA := none, infoH2A := none, classAttrs := ["rating3-t"]
    commentEl := some "c", shortNote := none, dateEl := none, tagsEl := none }

/-- Claim C9, witness: a title-less block in the middle of a page changes
nothing about the other blocks' records. -/
theorem C9_witness :
    parseDoubanPage ⟨"", ⟨none, [itemA, itemNoTitle]⟩⟩ Category.movie
      = parseDoubanPage ⟨"", ⟨none, [itemA]⟩⟩ Category.movie :=
  (C9_no_abort Category.movie none "" [itemA] [] itemNoTitle (by decide)).2

/-- Claim C6.  The page offset advances by the fixed page size 15 exactly
on pages whose extraction yielded at least one record: in that case the
loop recurses at offset `start + 15`; a page whose extraction yields zero
records, a failed fetch, and a soft-blocked body all return the final
state immediately — no further page is requested and the offset is never
advanced. -/
theorem C6_offset_policy (T : Transport) (uid cookie : String) (cat : Category)
    (f1 p1 s1 : Nat) (st1 : LoopState) (html1 : Html)
    (h1 : fetchViaLocalServer T (buildUrl cat uid s1) cookie = Except.ok html1)
    (hb1 : hasBlockMarkers html1 = false)
    (hne1 : parseDoubanPage html1 cat ≠ [])
    (f2 p2 s2 : Nat) (st2 : LoopState) (html2 : Html)
    (h2 : fetchViaLocalServer T (buildUrl cat uid s2) cookie = Except.ok html2)
    (hb2 : hasBlockMarkers html2 = false)
    (hp2 : parseDoubanPage html2 cat = [])
    (f3 p3 s3 : Nat) (st3 : LoopState) (msg : String)
    (h3 : fetchViaLocalServer T (buildUrl cat uid s3) cookie = Except.error msg)
    (f4 p4 s4 : Nat) (st4 : LoopState) (html4 : Html)
    (h4 : fetchViaLocalServer T (buildUrl cat uid s4) cookie = Except.ok html4)
    (hb4 : hasBlockMarkers html4 = true) :
    (crawlPages T uid cookie cat (f1 + 1) p1 s1 st1 =
      crawlPages T uid cookie cat f1 (p1 + 1) (s1 + 15)
        { acc := st1.acc ++ parseDoubanPage html1 cat
          logs := st1.logs ++
            [requestLog cat p1, captureLog (parseDoubanPage html1 cat).length]
          urls := st1.urls ++ [buildUrl cat uid s1] })
    ∧ (crawlPages T uid cookie cat (f2 + 1) p2 s2 st2 =
      { st2 with logs := st2.logs ++ [requestLog cat p2] ++
                  (if p2 = 1 then [emptyPageLog cat] else [])
                 urls := st2.urls ++ [buildUrl cat uid s2] })
    ∧ (crawlPages T uid cookie cat (f3 + 1) p3 s3 st3 =
      { st3 with logs := st3.logs ++ [requestLog cat p3, stopLog cat msg]
                 urls := st3.urls ++ [buildUrl cat uid s3] })
    ∧ (crawlPages T uid cookie cat (f4 + 1) p4 s4 st4 =
      { st4 with logs := st4.logs ++ [requestLog cat p4, stopLog cat blockMsg]
                 urls := st4.urls ++ [buildUrl cat uid s4] }) :=
  ⟨crawlPages_next T uid cookie cat f1 p1 s1 st1 html1 h1 hb1 hne1,
   crawlPages_emptyPage T uid cookie cat f2 p2 s2 st2 html2 h2 hb2 hp2,
   crawlPages_fail T uid cookie cat f3 p3 s3 st3 msg h3,
   crawlPages_blocked T uid cookie cat f4 p4 s4 st4 html4 h4 hb4⟩

/-- Claim C6, witness: concrete instantiation of the advancing case on a
transport whose offset-0 page holds one record. -/
theorem C6_witness :
    crawlPages Tmixed "u" "c" Category.movie 4 1 0 ⟨[], [], []⟩ =
      crawlPages Tmixed "u" "c" Category.movie 3 2 15
        { acc := [] ++ parseDoubanPage pageA Category.movie
          logs := [] ++ [requestLog Category.movie 1,
            captureLog (parseDoubanPage pageA Category.movie).length]
          urls := [] ++ [buildUrl Category.movie "u" 0] } :=
  (C6_offset_policy Tmixed "u" "c" Category.movie
    3 1 0 ⟨[], [], []⟩ pageA rfl (by decide) (by decide)
    9 2 15 ⟨[], [], []⟩ pageEmpty rfl (by decide) (by decide)
    9 3 30 ⟨[], [], []⟩ proxyDownMsg rfl
    9 4 45 ⟨[], [], []⟩ pageBlocked rfl (by decide)).1

/-- Claim C7.  A successful fetch on page 1 whose extraction yields zero
records stops the category loop immediately: exactly one URL is requested
(page 2 is never scheduled although fuel remains), the informational
empty-page log is emitted, the accumulator is untouched and no stop/error
log is produced — the page is handled by the normal zero-record branch,
not as an error.  On any page after the first the same situation emits no
informational log. -/
theorem C7_empty_first_page (T : Transport) (uid cookie : String)
    (cat : Category) (fuel start page : Nat) (st : LoopState) (html : Html)
    (h : fetchViaLocalServer T (buildUrl cat uid start) cookie = Except.ok html)
    (hb : hasBlockMarkers html = false)
    (hp : parseDoubanPage html cat = [])
    (hpage : 2 ≤ page) :
    (crawlPages T uid cookie cat (fuel + 1) 1 start st =
      { st with logs := st.logs ++ [requestLog cat 1, emptyPageLog cat]
                urls := st.urls ++ [buildUrl cat uid start] })
    ∧ (crawlPages T uid cookie cat (fuel + 1) page start st =
      { st with logs := st.logs ++ [requestLog cat page]
                urls := st.urls ++ [buildUrl cat uid start] }) := by
  constructor
  · rw [crawlPages_emptyPage T uid cookie cat fuel 1 start st html h hb hp]
    simp
  · rw [crawlPages_emptyPage T uid cookie cat fuel page start st html h hb hp]
    have hne : ¬(page = 1) := by omega
    simp [hne]

/-- Claim C7, witness: concrete instantiation on a transport serving an
empty page. -/
theorem C7_witness :
    (crawlPages Tempty "u" "" Category.movie 4 1 0 ⟨[], [], []⟩ =
      { acc := [], logs := [requestLog Category.movie 1, emptyPageLog Category.movie]
        urls := [buildUrl Category.movie "u" 0] })
    ∧ (crawlPages Tempty "u" "" Category.movie 4 2 0 ⟨[], [], []⟩ =
      { acc := [], logs := [requestLog Category.movie 2]
        urls := [buildUrl Category.movie "u" 0] }) :=
  C7_empty_first_page Tempty "u" "" Category.movie 3 0 2 ⟨[], [], []⟩ pageEmpty
    rfl (by decide) (by decide) (by decide)

/-- Claim C8.  A fetch/classification failure on a page stops the
category's loop without requesting further pages and without touching the
records accumulated so far (first conjunct, for any loop state); when
page 1 succeeded with records and page 2 fails, `crawlUserReviews`
returns exactly the page-1 records — they are retained in the final
result — and requested only the two pages. -/
theorem C8_failure_retains (T : Transport) (uid cookie : String)
    (fg pg sg : Nat) (stg : LoopState) (msgg : String)
    (hg : fetchViaLocalServer T (buildUrl Category.movie uid sg) cookie =
      Except.error msgg)
    (html1 : Html) (msg : String)
    (h1 : fetchViaLocalServer T (buildUrl Category.movie uid 0) cookie =
      Except.ok html1)
    (hb1 : hasBlockMarkers html1 = false)
    (hne1 : parseDoubanPage html1 Category.movie ≠ [])
    (h2 : fetchViaLocalServer T (buildUrl Category.movie uid 15) cookie =
      Except.error msg) :
    ((crawlPages T uid cookie Category.movie (fg + 1) pg sg stg).acc = stg.acc)
    ∧ (crawlUserReviews T uid cookie).result =
        Except.ok (parseDoubanPage html1 Category.movie)
    ∧ (crawlUserReviews T uid cookie).urls =
        [buildUrl Category.movie uid 0, buildUrl Category.movie uid 15] := by
  have hstep := crawlPages_next T uid cookie Category.movie 3 1 0
    ⟨[], startupLogs cookie, []⟩ html1 h1 hb1 hne1
  have hstep2 := crawlPages_fail T uid cookie Category.movie 2 2 15
    { acc := [] ++ parseDoubanPage html1 Category.movie
      logs := startupLogs cookie ++
        [requestLog Category.movie 1,
          captureLog (parseDoubanPage html1 Category.movie).length]
      urls := [] ++ [buildUrl Category.movie uid 0] } msg h2
  have hlen : (parseDoubanPage html1 Category.movie).length ≠ 0 := by
    simpa [List.length_eq_zero] using hne1
  refine ⟨?_, ?_, ?_⟩
  · rw [crawlPages_fail T uid cookie Category.movie fg pg sg stg msgg hg]
  · rw [crawlUserReviews_eq]
    simp only []
    rw [hstep, hstep2]
    simp [hlen]
  · rw [crawlUserReviews_urls, hstep, hstep2]
    simp

/-- Claim C8, witness: concrete instantiation on a transport whose
offset-0 page holds one record and whose offset-15 fetch refuses the
connection. -/
theorem C8_witness :
    (crawlUserReviews ToneThenFail "u" "c").result =
      Except.ok (parseDoubanPage pageA Category.movie)
    ∧ (crawlUserReviews ToneThenFail "u" "c").urls =
        [buildUrl Category.movie "u" 0, buildUrl Category.movie "u" 15]
    ∧ (crawlPages ToneThenFail "u" "c" Category.movie 1 9 77
        ⟨[recA], [], []⟩).acc = [recA] := by
  have h := C8_failure_retains ToneThenFail "u" "c" 0 9 77 ⟨[recA], [], []⟩
    proxyDownMsg rfl pageA proxyDownMsg rfl (by decide) (by decide) rfl
  exact ⟨h.2.1, h.2.2, h.1⟩

/-- Claim C10.  Whatever the transport does, every target URL the entry
point requests lives on the movie subdomain, and every record in a
successful result carries category `movie` — the book and music variants
are never produced, since the category list is the literal `['movie']`. -/
theorem C10_movie_only (T : Transport) (uid cookie : String) :
    (∀ u ∈ (crawlUserReviews T uid cookie).urls,
        ∃ rest, u = "https://movie.douban.com/" ++ rest)
    ∧ (∀ rs, (crawlUserReviews T uid cookie).result = Except.ok rs →
        ∀ r ∈ rs, r.category = Category.movie) := by
  constructor
  · intro u hu
    rw [crawlUserReviews_urls] at hu
    exact crawlPages_urls_pred T uid cookie Category.movie
      (fun v => ∃ rest, v = "https://movie.douban.com/" ++ rest)
      (fun s => ⟨_, buildUrl_movie uid s⟩) 4 1 0 _ (by simp) u hu
  · intro rs hrs r hr
    rw [crawlUserReviews_ok hrs] at hr
    exact crawlPages_acc_pred T uid cookie Category.movie
      (fun x => x.category = Category.movie)
      (fun h x hx => mem_parseDoubanPage_category hx) 4 1 0 _ (by simp) r hr

/-- Claim C10, witness: concrete instantiation. -/
theorem C10_witness :
    (∀ u ∈ (crawlUserReviews ToneThenFail "u" "c").urls,
        ∃ rest, u = "https://movie.douban.com/" ++ rest)
    ∧ recA.category = Category.movie :=
  ⟨(C10_movie_only ToneThenFail "u" "c").1,
    (C10_movie_only ToneThenFail "u" "c").2 [recA] rfl recA (by decide)⟩

/-- Claim C1, counterexample.  With a transport that always fails with a
connection failure, `crawlUserReviews` does fail — but the failure it
throws is the empty-aggregate error `数据为空…`, whose message mentions
neither the proxy nor the local dependency; the proxy hint (`node
proxy.js`) lives in a different message. -/
theorem C1_counterexample :
    (crawlUserReviews Tfail "u" "c").result = Except.error emptyDataMsg
    ∧ containsSubstr emptyDataMsg "proxy" = false
    ∧ containsSubstr emptyDataMsg "代理" = false
    ∧ containsSubstr proxyDownMsg "node proxy.js" = true :=
  ⟨rfl, by decide, by decide, by decide⟩

/-- Claim C1, amended.  If every transport call fails with a connection
failure (message containing `Failed to fetch` or `Connection refused`),
then `crawlUserReviews` fails with the empty-aggregate error
(`EmptyResultError` class), while the `NetworkError` message referencing
the missing local dependency (`node proxy.js`) is emitted to the log sink
as the category stop line, not thrown. -/
theorem C1_corrected (T : Transport) (uid cookie : String)
    (hT : ∀ u c, ∃ m, T u c = FetchOutcome.connFail m ∧
        (containsSubstr m "Failed to fetch" = true ∨
         containsSubstr m "Connection refused" = true)) :
    (crawlUserReviews T uid cookie).result = Except.error emptyDataMsg
    ∧ stopLog Category.movie proxyDownMsg ∈ (crawlUserReviews T uid cookie).logs
    ∧ containsSubstr proxyDownMsg "node proxy.js" = true
    ∧ containsSubstr emptyDataMsg "node proxy.js" = false := by
  obtain ⟨m, hm, hc⟩ := hT (buildUrl Category.movie uid 0) cookie
  have hf := fetchViaLocalServer_connFail T _ _ m hm hc
  have hstep := crawlPages_fail T uid cookie Category.movie 3 1 0
    ⟨[], startupLogs cookie, []⟩ proxyDownMsg hf
  refine ⟨?_, ?_, by decide, by decide⟩
  · rw [crawlUserReviews_eq]
    simp only []
    rw [hstep]
    simp
  · rw [crawlUserReviews_logs, hstep]
    simp

/-- Claim C1, witness: concrete instantiation of the amended theorem. -/
theorem C1_corrected_witness :
    (crawlUserReviews Tfail "u" "").result = Except.error emptyDataMsg
    ∧ stopLog Category.movie proxyDownMsg ∈ (crawlUserReviews Tfail "u" "").logs := by
  have h := C1_corrected Tfail "u" ""
    (fun u c => ⟨"Failed to fetch", rfl, Or.inl (by decide)⟩)
  exact ⟨h.1, h.2.1⟩
